import Mathlib

/-!
Shallow embedding of `src/utils.py` (MRL_Pipeline): utility functions that
interact with the EU pesticide database and drive a compliance pipeline.

Modelling conventions:
* HTTP responses are passed in explicitly.  `fetch_all_data` receives the
  chain of JSON pages the server would serve, in request order; the MRL
  endpoint is an oracle function from the two query ids to a payload.
* A JSON object field that may be absent is an `Option`; `dict.get(k, d)`
  is `Option.getD`, `dict.get(k)` is the bare `Option`.
* Python `float` values coming from decimal literals are modelled as `ℚ`
  (exact decimal arithmetic; the strings occurring in MRL data are plain
  finite decimal literals).
* A Python exception escaping a function is modelled by an `Option`/`Except`
  error value, or by an explicit outcome constructor.
-/

/-! ## Paginated fetcher (`fetch_all_data`, utils.py lines 31-51) -/

/-- One JSON page served by the paginated EU API: an optional `value` array
of records and an optional `nextLink` continuation URL. -/
structure Page (α : Type) where
  value : Option (List α)
  nextLink : Option String
  deriving DecidableEq

/-- Python truthiness of the `nextLink` field: `while next_link:` treats both
a missing key (`None`) and an empty string as false. -/
def truthy : Option String → Bool
  | none => false
  | some s => s ≠ ""

/-- The `while next_link:` loop of `fetch_all_data`: given the `nextLink`
of the previous response and the remaining responses the server will serve,
accumulate `payload.get("value", [])` of each page fetched. -/
def fetchLoop {α : Type} : Option String → List (Page α) → List α
  | _, [] => []
  | link, p :: rest =>
    if truthy link then p.value.getD [] ++ fetchLoop p.nextLink rest else []

/-- `fetch_all_data` (utils.py 31-51): issue the first GET, append its
`value` array, then follow `nextLink` while present.  `pages` is the chain
of responses in request order (nonempty whenever the first GET succeeds). -/
def fetch_all_data {α : Type} : List (Page α) → List α
  | [] => []
  | p :: rest => p.value.getD [] ++ fetchLoop p.nextLink rest

/-- A well-formed response chain: nonempty, every page but the last carries
a truthy `nextLink`, and the last page has none (the loop terminates). -/
def isChain {α : Type} : List (Page α) → Bool
  | [] => false
  | [p] => ! truthy p.nextLink
  | p :: rest => truthy p.nextLink && isChain rest

lemma fetchLoop_cons {α : Type} (link : Option String) (p : Page α)
    (rest : List (Page α)) :
    fetchLoop link (p :: rest) =
      if truthy link then p.value.getD [] ++ fetchLoop p.nextLink rest else [] := rfl

lemma fetchLoop_chain {α : Type} (pages : List (Page α)) :
    ∀ link, truthy link = true → isChain pages = true →
      fetchLoop link pages = (pages.map (fun p => p.value.getD [])).flatten := by
  induction pages with
  | nil => intro link _ hchain; simp [isChain] at hchain
  | cons p rest ih =>
    intro link hlink hchain
    cases rest with
    | nil =>
      simp only [isChain, Bool.not_eq_true'] at hchain
      simp [fetchLoop, hlink, hchain]
    | cons q rest2 =>
      simp only [isChain, Bool.and_eq_true] at hchain
      rw [fetchLoop_cons, if_pos hlink, ih p.nextLink hchain.1 hchain.2]
      simp

/-- **C2.** `fetch_all_data` on a well-formed chain of `N` responses returns
the concatenation of the per-page `value` arrays in request order; when the
first response has no (truthy) `nextLink`, it returns exactly the
first `value` array alone, whatever else the server could have served. -/
theorem fetch_all_data_concat_spec {α : Type} :
    (∀ pages : List (Page α), isChain pages = true →
        fetch_all_data pages = (pages.map (fun p => p.value.getD [])).flatten) ∧
    (∀ (p : Page α) (rest : List (Page α)), truthy p.nextLink = false →
        fetch_all_data (p :: rest) = p.value.getD []) := by
  constructor
  · intro pages hchain
    cases pages with
    | nil => simp [isChain] at hchain
    | cons p rest =>
      cases rest with
      | nil => simp [fetch_all_data, fetchLoop]
      | cons q rest2 =>
        simp only [isChain, Bool.and_eq_true] at hchain
        simp [fetch_all_data, fetchLoop_chain (q :: rest2) p.nextLink hchain.1 hchain.2]
  · intro p rest hlink
    cases rest with
    | nil => simp [fetch_all_data, fetchLoop]
    | cons q rest2 => simp [fetch_all_data, fetchLoop, hlink]

/-- Concrete two-page chain exercising `fetch_all_data_concat_spec`. -/
theorem fetch_all_data_concat_spec_witness :
    fetch_all_data [⟨some [1, 2], some "n2"⟩, ⟨some [3], none⟩] = [1, 2, 3] ∧
    fetch_all_data [(⟨some [7, 8], none⟩ : Page Nat), ⟨some [9], none⟩] = [7, 8] := by
  constructor
  · exact (fetch_all_data_concat_spec.1
      [⟨some [1, 2], some "n2"⟩, ⟨some [3], none⟩] (by decide)).trans (by decide)
  · exact fetch_all_data_concat_spec.2 ⟨some [7, 8], none⟩ [⟨some [9], none⟩] (by decide)

/-! ## MRL lookup (`get_substance_mrl_EU`, utils.py lines 54-73) -/

/-- One record of the `value` array of the MRL endpoint.  Fields the code never
reads are irrelevant to the claims and are omitted from the model. -/
structure MRLEntry where
  applicability_text : Option String
  mrl_value : Option String
  deriving DecidableEq

/-- The JSON payload of one MRL endpoint response: `payload.get("value")`
is `none` when the `value` key is absent. -/
structure MRLPayload where
  value : Option (List MRLEntry)

/-- `get_substance_mrl_EU` (utils.py 54-73): query the MRL endpoint for a
(product id, substance id) pair and keep the entries whose
`applicability_text` equals exactly `"Applicable"`.  The network is the
`server` oracle.  When the payload has no `value` key, the Python list
comprehension iterates over `None` and raises `TypeError`; that escaping
exception is the `none` result. -/
def get_substance_mrl_EU (server : String → String → MRLPayload)
    (product_id substance_id : String) : Option (List MRLEntry) :=
  match (server product_id substance_id).value with
  | none => none
  | some data =>
    some (data.filter (fun mlr => mlr.applicability_text == some "Applicable"))

/-- **C6.** Whenever the MRL response carries a `value` array,
`get_substance_mrl_EU` returns exactly the subsequence of that array whose
entries have `applicability_text = "Applicable"`, in response order (a
sublist of the array, possibly empty). -/
theorem get_substance_mrl_EU_filter (server : String → String → MRLPayload)
    (product_id substance_id : String) (data : List MRLEntry)
    (hv : (server product_id substance_id).value = some data) :
    get_substance_mrl_EU server product_id substance_id =
      some (data.filter (fun mlr => mlr.applicability_text == some "Applicable")) ∧
    (data.filter (fun mlr => mlr.applicability_text == some "Applicable")).Sublist
      data ∧
    ∀ mlr, mlr ∈ (data.filter
        (fun e => e.applicability_text == some "Applicable")) ↔
      mlr ∈ data ∧ mlr.applicability_text = some "Applicable" := by
  refine ⟨?_, List.filter_sublist data, ?_⟩
  · unfold get_substance_mrl_EU
    rw [hv]
  · intro mlr
    simp [List.mem_filter]

/-- Concrete instance of `get_substance_mrl_EU_filter`: one applicable and
one non-applicable entry; only the applicable one survives, order kept. -/
theorem get_substance_mrl_EU_filter_witness :
    get_substance_mrl_EU
        (fun _ _ => ⟨some [⟨some "Applicable", some "0.01"⟩,
          ⟨some "Not applicable", some "0.5"⟩]⟩) "p1" "s1" =
      some [⟨some "Applicable", some "0.01"⟩] := by
  have h := get_substance_mrl_EU_filter
    (fun _ _ => ⟨some [⟨some "Applicable", some "0.01"⟩,
      ⟨some "Not applicable", some "0.5"⟩]⟩) "p1" "s1"
    [⟨some "Applicable", some "0.01"⟩, ⟨some "Not applicable", some "0.5"⟩] rfl
  exact h.1.trans (by decide)

/-- **C10.** On a response whose JSON object has no `value` key,
`get_substance_mrl_EU` errors out (models the uncaught `TypeError` from
iterating `None`), while `fetch_all_data`, whose single page also lacks the
`value` key, completes normally with the empty record list: the two
functions treat the same missing field differently (`payload.get("value")`
versus `payload.get("value", [])`). -/
theorem missing_value_key_divergence {α : Type}
    (server : String → String → MRLPayload) (product_id substance_id : String)
    (hs : (server product_id substance_id).value = none)
    (p : Page α) (hv : p.value = none) (_hn : p.nextLink = none) :
    get_substance_mrl_EU server product_id substance_id = none ∧
    fetch_all_data [p] = [] := by
  constructor
  · unfold get_substance_mrl_EU
    rw [hs]
  · simp [fetch_all_data, fetchLoop, hv]

/-- Concrete instance of `missing_value_key_divergence`. -/
theorem missing_value_key_divergence_witness :
    get_substance_mrl_EU (fun _ _ => ⟨none⟩) "p1" "s1" = none ∧
    fetch_all_data [(⟨none, none⟩ : Page Nat)] = [] :=
  missing_value_key_divergence (fun _ _ => ⟨none⟩) "p1" "s1" rfl
    ⟨none, none⟩ rfl rfl

/-! ## Reference MRL parsing and verdict (`fetch_mrl_data`, utils.py 145-161) -/

/-- Numeric value of a digit list, most significant digit first. -/
def natOfDigits (cs : List Char) : Nat :=
  cs.foldl (fun a c => a * 10 + (c.toNat - 48)) 0

/-- Optional sign prefix of a numeric literal. -/
def parseSign : List Char → Int × List Char
  | '+' :: cs => (1, cs)
  | '-' :: cs => (-1, cs)
  | cs => (1, cs)

/-- Mantissa of a decimal literal: `digits`, `digits.digits`, `digits.`
or `.digits`; at least one digit overall.  Returns the exact numerator
(the digits with the dot removed) and denominator (a power of ten). -/
def parseMantissa (cs : List Char) : Option (Nat × Nat × List Char) :=
  let ip := cs.takeWhile Char.isDigit
  let rest := cs.dropWhile Char.isDigit
  match rest with
  | '.' :: rest2 =>
    let fp := rest2.takeWhile Char.isDigit
    let rest3 := rest2.dropWhile Char.isDigit
    if ip.isEmpty && fp.isEmpty then none
    else some (natOfDigits (ip ++ fp), 10 ^ fp.length, rest3)
  | _ => if ip.isEmpty then none else some (natOfDigits ip, 1, rest)

/-- Optional exponent suffix `e±digits` / `E±digits`; demands that nothing
follows it.  The empty rest means exponent 0. -/
def parseExponent : List Char → Option Int
  | [] => some 0
  | c :: rest =>
    if c = 'e' ∨ c = 'E' then
      let (sgn, rest2) := parseSign rest
      let ed := rest2.takeWhile Char.isDigit
      let rest3 := rest2.dropWhile Char.isDigit
      if ed.isEmpty || !rest3.isEmpty then none
      else some (sgn * (natOfDigits ed : Int))
    else none

/-- Exact value of a decimal literal as a signed numerator over a positive
denominator, computed in `Int`/`Nat` arithmetic only. -/
def decParts (cs : List Char) : Option (Int × Nat) :=
  let (sgn, cs1) := parseSign cs
  match parseMantissa cs1 with
  | none => none
  | some (mn, md, rest) =>
    match parseExponent rest with
    | none => none
    | some e =>
      if 0 ≤ e then some (sgn * mn * 10 ^ e.toNat, md)
      else some (sgn * mn, md * 10 ^ (-e).toNat)

/-- Model of Python `float(s)` on finite decimal literals (optional
surrounding whitespace, optional sign, decimal mantissa, optional decimal
exponent), with exact rational arithmetic; a `ValueError` is `none`.
Non-finite spellings (`inf`, `nan`) and digit-group underscores do not occur
in MRL data and are outside the model. -/
def pyFloat (s : String) : Option ℚ :=
  let cs := ((s.toList.dropWhile Char.isWhitespace).reverse.dropWhile
    Char.isWhitespace).reverse
  (decParts cs).map (fun p => (p.1 : ℚ) / (p.2 : ℚ))

/-- `mrl_options.replace("*", "")` (utils.py 147): with a one-character
pattern, `str.replace` is exactly removal of every asterisk. -/
def removeStars (s : String) : String := ⟨s.toList.filter (fun c => c ≠ '*')⟩

/-- utils.py 146-150: the parsed reference threshold, paired with whether
the `ValueError` warning was printed.  The literal `"No MRL required"`
short-circuits to 0 before any parsing; an unparsable string falls back to
0 with the warning. -/
def parse_mrl_threshold (mrl_options : String) : ℚ × Bool :=
  if mrl_options = "No MRL required" then (0, false)
  else
    match pyFloat (removeStars mrl_options) with
    | some v => (v, false)
    | none => (0, true)

/-- utils.py 154-155: the compliance verdict from the reference MRL string
and the measured value. -/
def compliance_result (mrl_options : String) (mrl : ℚ) : String :=
  if mrl_options = "No MRL required" ∨ mrl < (parse_mrl_threshold mrl_options).1
  then "CONFORME" else "NON CONFORME"

/-- Sanity check of the literal parsing on the running example of the spec:
`float("0.01")` is exactly `1/100`. -/
lemma pyFloat_two_digit_example : pyFloat "0.01" = some (1 / 100) := by
  unfold pyFloat
  show Option.map (fun p => (p.1 : ℚ) / (p.2 : ℚ)) (decParts ['0', '.', '0', '1']) =
    some (1 / 100)
  rw [show decParts ['0', '.', '0', '1'] = some (1, 100) from by decide]
  norm_num

/-- The parsing rejects what Python `float` rejects on the inputs of the claims. -/
lemma pyFloat_reject_examples :
    pyFloat "abc" = none ∧ pyFloat "1.2.3" = none ∧ pyFloat "1e" = none := by
  refine ⟨?_, ?_, ?_⟩ <;> decide

/-- The parsed threshold of the reference string `"0.01*"`: the asterisk is
stripped and the remainder parses to exactly `1/100`. -/
lemma parse_mrl_threshold_star_example :
    parse_mrl_threshold "0.01*" = (1 / 100, false) := by
  unfold parse_mrl_threshold
  rw [if_neg (by decide)]
  rw [show removeStars "0.01*" = "0.01" from by decide, pyFloat_two_digit_example]

/-- **C1.** The Compliance Checker emits `CONFORME` iff the reference MRL
string is the literal `"No MRL required"` or the measured value is strictly
below the parsed reference threshold; in every other case -- a measured
value exactly equal to the threshold included -- it emits `NON CONFORME`. -/
theorem compliance_result_iff (mrl_options : String) (mrl : ℚ) :
    (compliance_result mrl_options mrl = "CONFORME" ↔
      mrl_options = "No MRL required" ∨
        mrl < (parse_mrl_threshold mrl_options).1) ∧
    (compliance_result mrl_options mrl = "CONFORME" ∨
      compliance_result mrl_options mrl = "NON CONFORME") ∧
    (mrl_options ≠ "No MRL required" →
      mrl = (parse_mrl_threshold mrl_options).1 →
      compliance_result mrl_options mrl = "NON CONFORME") := by
  unfold compliance_result
  split <;> rename_i h
  · refine ⟨by simp [h], Or.inl rfl, fun h1 h2 => ?_⟩
    rcases h with h | h
    · exact absurd h h1
    · rw [h2] at h
      exact absurd h (lt_irrefl _)
  · exact ⟨iff_of_false (by decide) h, Or.inr rfl, fun _ _ => rfl⟩

/-- `compliance_result_iff` at concrete inputs: reference `"0.01*"` with a
measured value equal to the parsed threshold is `NON CONFORME`, and
reference `"No MRL required"` is `CONFORME` at any measured value. -/
theorem compliance_result_iff_witness :
    compliance_result "0.01*" ((parse_mrl_threshold "0.01*").1) = "NON CONFORME" ∧
    compliance_result "No MRL required" 5 = "CONFORME" := by
  constructor
  · exact (compliance_result_iff "0.01*" ((parse_mrl_threshold "0.01*").1)).2.2
      (by decide) rfl
  · exact (compliance_result_iff "No MRL required" 5).1.mpr (Or.inl rfl)

/-- **C4.** A reference MRL string other than `"No MRL required"` that does
not parse as a float once asterisks are stripped sets the warning flag,
makes the threshold 0, and yields `NON CONFORME` for every strictly
positive measured value. -/
theorem unparsable_mrl_defaults_to_zero (mrl_options : String)
    (hne : mrl_options ≠ "No MRL required")
    (hp : pyFloat (removeStars mrl_options) = none) :
    (parse_mrl_threshold mrl_options).2 = true ∧
    (parse_mrl_threshold mrl_options).1 = 0 ∧
    ∀ mrl : ℚ, 0 < mrl → compliance_result mrl_options mrl = "NON CONFORME" := by
  have hth : parse_mrl_threshold mrl_options = (0, true) := by
    unfold parse_mrl_threshold
    rw [if_neg hne, hp]
  refine ⟨by rw [hth], by rw [hth], fun mrl hpos => ?_⟩
  unfold compliance_result
  rw [if_neg]
  rintro (h | h)
  · exact hne h
  · rw [hth] at h
    exact lt_asymm h hpos

/-- `unparsable_mrl_defaults_to_zero` at the concrete spec input
`"abc"`, measured value 1. -/
theorem unparsable_mrl_defaults_to_zero_witness :
    (parse_mrl_threshold "abc").2 = true ∧ (parse_mrl_threshold "abc").1 = 0 ∧
    compliance_result "abc" 1 = "NON CONFORME" := by
  have h := unparsable_mrl_defaults_to_zero "abc" (by decide) (by decide)
  exact ⟨h.1, h.2.1, h.2.2 1 one_pos⟩

/-! ## Name resolution (`fetch_mrl_data`, utils.py 120-135)

`df.<col>.str.contains(query, case=False, na=False)` treats `query` as a
regular expression (`regex=True` is the pandas default) searched
case-insensitively (`re.IGNORECASE`) anywhere in the cell (`re.search`),
with missing cells counting as no match (`na=False`).  The model covers
the regex fragment the cached names and the claims exercise: literal
characters and the `.` wildcard. -/

/-- The characters `re` treats specially outside character classes. -/
def regexMeta : List Char := ['.', '^', '$', '*', '+', '?', Char.ofNat 123,
  Char.ofNat 125, '[', ']', '(', ')', '|', '\\']

/-- A query free of regex metacharacters, on which `re.search` degenerates
to literal substring search. -/
def isLiteralQuery (q : String) : Bool :=
  q.toList.all (fun c => !(regexMeta.contains c))

/-- Case-insensitive single-character regex match: `.` matches anything,
any other pattern character matches itself up to ASCII case. -/
def charMatch (p c : Char) : Bool := p == '.' || p.toLower == c.toLower

/-- Anchored match: the whole pattern consumes a prefix of the text. -/
def matchHere : List Char → List Char → Bool
  | [], _ => true
  | _ :: _, [] => false
  | p :: ps, c :: cs => charMatch p c && matchHere ps cs

/-- `re.search` with `re.IGNORECASE` on the dotted-literal fragment: the
pattern matches at some position of the text. -/
def reSearch (pat : List Char) : List Char → Bool
  | [] => matchHere pat []
  | c :: cs => matchHere pat (c :: cs) || reSearch pat cs

/-- One cell of `Series.str.contains(pat, case=False, na=False)`
(utils.py 124 and 131). -/
def str_contains (pat : String) (cell : Option String) : Bool :=
  match cell with
  | none => false
  | some s => reSearch pat.toList s.toList

/-- Modelled from the spec: anchored case-insensitive literal prefix
match, the building block of "contains as a substring". -/
def ciStartsWith : List Char → List Char → Bool
  | [], _ => true
  | _ :: _, [] => false
  | q :: qs, c :: cs => q.toLower == c.toLower && ciStartsWith qs cs

/-- Modelled from the spec: `q` occurs case-insensitively as a contiguous
substring of the text. -/
def ciSubstr (q : List Char) : List Char → Bool
  | [] => ciStartsWith q []
  | c :: cs => ciStartsWith q (c :: cs) || ciSubstr q cs

/-- Modelled from the spec: "first row whose name column case-insensitively
contains the query as a substring", on one optional cell. -/
def spec_contains (query : String) (cell : Option String) : Bool :=
  match cell with
  | none => false
  | some s => ciSubstr query.toList s.toList

/-- One row of the `eu_products.csv` cache as `fetch_mrl_data` reads it
back (the two columns the code uses). -/
structure ProdRow where
  product_name : Option String
  product_id : Int
  deriving DecidableEq

/-- One row of the `eu_pesticides.csv` cache (the two columns used). -/
structure PestRow where
  substance_name : Option String
  substance_id : Int
  deriving DecidableEq

/-- utils.py 124-128: boolean-mask filter followed by `.iloc[0]`, i.e. the
first row whose `product_name` matches, if any. -/
def find_product_id (df_prod : List ProdRow) (product_name : String) :
    Option Int :=
  (df_prod.find? (fun r => str_contains product_name r.product_name)).map
    (fun r => r.product_id)

/-- utils.py 131-135: the same first-match rule on the substance cache. -/
def find_substance_id (df_pest : List PestRow) (sub_name : String) :
    Option Int :=
  (df_pest.find? (fun r => str_contains sub_name r.substance_name)).map
    (fun r => r.substance_id)

lemma find?_congr_pred {α : Type} (l : List α) (f g : α → Bool)
    (h : ∀ a, f a = g a) : l.find? f = l.find? g := by
  induction l with
  | nil => rfl
  | cons a l ih => simp only [List.find?, h a, ih]

lemma matchHere_literal (pat : List Char) (hpat : pat.all (fun c => c ≠ '.')) :
    ∀ s, matchHere pat s = ciStartsWith pat s := by
  induction pat with
  | nil => intro s; cases s <;> rfl
  | cons p ps ih =>
    simp only [List.all_cons, Bool.and_eq_true, decide_eq_true_eq] at hpat
    intro s
    cases s with
    | nil => rfl
    | cons c cs =>
      simp only [matchHere, ciStartsWith, charMatch,
        ih (by simpa using hpat.2) cs]
      have hp : (p == '.') = false := by
        simpa using hpat.1
      rw [hp, Bool.false_or]

lemma reSearch_literal (pat : List Char) (hpat : pat.all (fun c => c ≠ '.'))
    (s : List Char) : reSearch pat s = ciSubstr pat s := by
  induction s with
  | nil => simp [reSearch, ciSubstr, matchHere_literal pat hpat]
  | cons c cs ih => simp [reSearch, ciSubstr, matchHere_literal pat hpat, ih]

lemma literal_no_dot (q : String) (hq : isLiteralQuery q = true) :
    q.toList.all (fun c => c ≠ '.') := by
  unfold isLiteralQuery at hq
  rw [List.all_eq_true] at hq ⊢
  intro c hc
  have h1 := hq c hc
  simp only [decide_eq_true_eq]
  intro hcdot
  rw [hcdot] at h1
  exact absurd h1 (by decide)

/-- **C3 fails as stated.** The lookup in the code is regex search, not
substring containment: the punctuated query `"x.z"` selects the cached row
named `"xyz"` (the dot is a wildcard) even though `"x.z"` is not a
case-insensitive substring of `"xyz"`; under the claimed containment rule
no row would match. -/
theorem lookup_regex_counterexample :
    find_product_id [⟨some "xyz", 7⟩] "x.z" = some 7 ∧
    spec_contains "x.z" (some "xyz") = false := by decide

/-- **C3 (amended).** Resolution is first-match-wins on the query
interpreted as a case-insensitive regular expression (`re.search`); for
every query free of regex metacharacters this coincides with
first-match-wins case-insensitive substring containment against the cached
name column, with no uniqueness among matching rows required. -/
theorem lookup_first_match_literal (df_prod : List ProdRow) (q : String)
    (hq : isLiteralQuery q = true) :
    find_product_id df_prod q =
      (df_prod.find? (fun r => spec_contains q r.product_name)).map
        (fun r => r.product_id) := by
  unfold find_product_id
  rw [find?_congr_pred df_prod _ _ (fun r => ?_)]
  cases hcell : r.product_name with
  | none => rfl
  | some s =>
    simp only [str_contains, spec_contains]
    exact reSearch_literal q.toList (literal_no_dot q hq) s.toList

/-- `lookup_first_match_literal` on the spec example: the literal query
`"apple"` finds the row named `"Apple, dessert"`; with two matching rows
the first wins. -/
theorem lookup_first_match_literal_witness :
    find_product_id [⟨some "Apple, dessert", 3⟩] "apple" =
      (([⟨some "Apple, dessert", 3⟩] : List ProdRow).find?
        (fun r => spec_contains "apple" r.product_name)).map
          (fun r => r.product_id) ∧
    find_product_id [⟨some "Apple, dessert", 3⟩] "apple" = some 3 ∧
    find_product_id [⟨some "apple pie", 1⟩, ⟨some "crab apple", 2⟩] "apple" =
      some 1 := by
  refine ⟨lookup_first_match_literal [⟨some "Apple, dessert", 3⟩] "apple"
    (by decide), by decide, by decide⟩

/-! ## Compliance checker control flow (`fetch_mrl_data`, utils.py 113-161) -/

/-- Outcome of `fetch_mrl_data`.  The two error constructors carry the name
interpolated into the returned `{"error": ...}` dict; `noData` is the
"no MRL data found" log line with no verdict; `lookupCrash` models the
`TypeError` escaping `get_substance_mrl_EU` on a missing `value` key;
`optionsCrash` models the `AttributeError` when the first entry has no
string `mrl_value` (the `[]` default of the `.get` on line 145 has
no `.replace`, and `AttributeError` is not caught by `except ValueError`). -/
inductive MRLOutcome
  | errorProductNotFound (product_name : String)
  | errorSubstanceNotFound (sub_name : String)
  | noData
  | lookupCrash
  | optionsCrash
  | verdict (text : String)
  deriving DecidableEq

/-- `fetch_mrl_data` (utils.py 113-161), paired with the list of
`get_substance_mrl_EU` invocations it performs, in order, so that
"does not invoke MRL Lookup" is a property of the model.  `lookup` is
`get_substance_mrl_EU` partially applied to the network oracle; the ids
pass through `str(...)` = `toString`. -/
def fetch_mrl_data (df_prod : List ProdRow) (df_pest : List PestRow)
    (lookup : String → String → Option (List MRLEntry))
    (product_name sub_name : String) (mrl : ℚ) :
    MRLOutcome × List (String × String) :=
  match find_product_id df_prod product_name with
  | none => (.errorProductNotFound product_name, [])
  | some pid =>
    match find_substance_id df_pest sub_name with
    | none => (.errorSubstanceNotFound sub_name, [])
    | some sid =>
      let product_id := toString pid
      let substance_id := toString sid
      match lookup product_id substance_id with
      | none => (.lookupCrash, [(product_id, substance_id)])
      | some [] => (.noData, [(product_id, substance_id)])
      | some (entry :: _) =>
        match entry.mrl_value with
        | none => (.optionsCrash, [(product_id, substance_id)])
        | some mrl_options =>
          (.verdict (compliance_result mrl_options mrl),
            [(product_id, substance_id)])

/-- **C5.** A product name with no matching cache row returns the
product-not-found error carrying exactly the queried name, with no MRL
lookup performed; a substance name with no matching row (the product
having matched) returns the substance-not-found error carrying exactly
the queried name, again with no lookup performed. -/
theorem not_found_short_circuits (df_prod : List ProdRow)
    (df_pest : List PestRow)
    (lookup : String → String → Option (List MRLEntry))
    (product_name sub_name : String) (mrl : ℚ) :
    (find_product_id df_prod product_name = none →
      fetch_mrl_data df_prod df_pest lookup product_name sub_name mrl =
        (.errorProductNotFound product_name, [])) ∧
    (∀ pid, find_product_id df_prod product_name = some pid →
      find_substance_id df_pest sub_name = none →
      fetch_mrl_data df_prod df_pest lookup product_name sub_name mrl =
        (.errorSubstanceNotFound sub_name, [])) := by
  constructor
  · intro h
    unfold fetch_mrl_data
    rw [h]
  · intro pid h1 h2
    unfold fetch_mrl_data
    rw [h1, h2]

/-- `not_found_short_circuits` at concrete inputs: an empty product cache,
then a matching product with an empty substance cache. -/
theorem not_found_short_circuits_witness :
    fetch_mrl_data [] [] (fun _ _ => some []) "Basil" "Captan" 0 =
      (.errorProductNotFound "Basil", []) ∧
    fetch_mrl_data [⟨some "Basil", 4⟩] [] (fun _ _ => some [])
        "Basil" "Captan" 0 =
      (.errorSubstanceNotFound "Captan", []) := by
  constructor
  · exact (not_found_short_circuits [] [] (fun _ _ => some [])
      "Basil" "Captan" 0).1 rfl
  · exact (not_found_short_circuits [⟨some "Basil", 4⟩] []
      (fun _ _ => some []) "Basil" "Captan" 0).2 4 (by decide) rfl

/-! ## Reference data builder (`create_and_dump_data`, utils.py 76-88) -/

/-- One product record as fetched from the products endpoint (the columns
the builder touches and the cache schema retains). -/
structure ProductRec where
  product_id : Int
  product_name : String
  product_parent_id : Option Int
  deriving DecidableEq

/-- One active-substance record as fetched (cache schema columns). -/
structure PestRec where
  substance_id : Int
  substance_name : String
  deriving DecidableEq

/-- `df_prod["product_parent_id"].fillna(0).astype(int)` (utils.py 82) on
one cell: a missing parent id becomes 0, any present one is kept as an
integer. -/
def coerce_parent_id (cell : Option Int) : Int := cell.getD 0

/-- `to_csv("eu_products.csv", index=False, sep="|")` (utils.py 83):
header row of column names, then one pipe-delimited line per record in
order, no index column, every line newline-terminated. -/
def products_to_csv (recs : List ProductRec) : String :=
  "product_id|product_name|product_parent_id\n" ++
    String.join (recs.map (fun r => toString r.product_id ++ "|" ++
      r.product_name ++ "|" ++ toString (coerce_parent_id r.product_parent_id)
        ++ "\n"))

/-- `to_csv("eu_pesticides.csv", index=False, sep="|")` (utils.py 88). -/
def pesticides_to_csv (recs : List PestRec) : String :=
  "substance_id|substance_name\n" ++
    String.join (recs.map (fun r => toString r.substance_id ++ "|" ++
      r.substance_name ++ "\n"))

/-- The working directory as a map from relative path to file content. -/
def FileSystem : Type := String → Option String

/-- Writing a file: the named path gets the new content whatever was there
before; every other path is untouched. -/
def fsWrite (fs : FileSystem) (path content : String) : FileSystem :=
  fun q => if q = path then some content else fs q

/-- `create_and_dump_data` (utils.py 76-88): fetch both paginated record
sets, coerce the product parent-id column, and write the two
pipe-delimited cache files at their fixed relative paths. -/
def create_and_dump_data (prodPages : List (Page ProductRec))
    (pestPages : List (Page PestRec)) (fs : FileSystem) : FileSystem :=
  fsWrite (fsWrite fs "eu_products.csv" (products_to_csv (fetch_all_data prodPages)))
    "eu_pesticides.csv" (pesticides_to_csv (fetch_all_data pestPages))

/-- **C7.** The builder coerces the parent id of each record (missing to 0,
present to its integer value) and writes both fetched sets as
pipe-delimited files with a header row and no index column at the fixed
relative paths, overwriting whatever content any prior filesystem had
there and touching nothing else. -/
theorem create_and_dump_data_spec (prodPages : List (Page ProductRec))
    (pestPages : List (Page PestRec)) (fs : FileSystem) :
    create_and_dump_data prodPages pestPages fs "eu_products.csv" =
      some (products_to_csv (fetch_all_data prodPages)) ∧
    create_and_dump_data prodPages pestPages fs "eu_pesticides.csv" =
      some (pesticides_to_csv (fetch_all_data pestPages)) ∧
    (∀ path, path ≠ "eu_products.csv" → path ≠ "eu_pesticides.csv" →
      create_and_dump_data prodPages pestPages fs path = fs path) ∧
    coerce_parent_id none = 0 ∧ (∀ n : Int, coerce_parent_id (some n) = n) := by
  refine ⟨?_, ?_, ?_, rfl, fun _ => rfl⟩
  · unfold create_and_dump_data fsWrite
    rw [if_neg (by decide), if_pos rfl]
  · unfold create_and_dump_data fsWrite
    rw [if_pos rfl]
  · intro path h1 h2
    unfold create_and_dump_data fsWrite
    rw [if_neg h2, if_neg h1]

/-- `create_and_dump_data_spec` on a one-page fetch of one product (with a
missing parent id) and one substance, over a filesystem that already holds
stale cache files: both are overwritten, other files survive. -/
theorem create_and_dump_data_spec_witness :
    create_and_dump_data [⟨some [⟨1, "apples", none⟩], none⟩]
        [⟨some [⟨9, "captan"⟩], none⟩]
        (fun _ => some "stale") "eu_products.csv" =
      some "product_id|product_name|product_parent_id\n1|apples|0\n" ∧
    create_and_dump_data [⟨some [⟨1, "apples", none⟩], none⟩]
        [⟨some [⟨9, "captan"⟩], none⟩]
        (fun _ => some "stale") "eu_pesticides.csv" =
      some "substance_id|substance_name\n9|captan\n" ∧
    create_and_dump_data [⟨some [⟨1, "apples", none⟩], none⟩]
        [⟨some [⟨9, "captan"⟩], none⟩]
        (fun _ => some "stale") "notes.txt" = some "stale" := by
  have h := create_and_dump_data_spec [⟨some [⟨1, "apples", none⟩], none⟩]
    [⟨some [⟨9, "captan"⟩], none⟩] (fun _ => some "stale")
  refine ⟨h.1.trans (by rfl), h.2.1.trans (by rfl),
    h.2.2.1 "notes.txt" (by decide) (by decide)⟩

/-! ## Base64 (the `base64.b64encode(...).decode("utf-8")` step,
utils.py 105) -/

/-- The standard base64 alphabet. -/
def b64chars : List Char :=
  "ABCDEFGHIJKLMNOPQRSTUVWXYZabcdefghijklmnopqrstuvwxyz0123456789+/".toList

/-- Character encoding a 6-bit group. -/
def b64ec (k : Nat) : Char := b64chars.getD k 'A'

/-- Index of a base64 alphabet character; `none` on padding or any foreign
character. -/
def b64dc (c : Char) : Option Nat := b64chars.findIdx? (fun x => x == c)

/-- RFC 4648 base64 of a byte list, what `base64.b64encode` produces:
three bytes map to four alphabet characters, a final partial group is
padded with `=`. -/
def b64encodeList : List Nat → List Char
  | [] => []
  | [a] => [b64ec (a / 4), b64ec (a % 4 * 16), '=', '=']
  | [a, b] =>
    [b64ec (a / 4), b64ec (a % 4 * 16 + b / 16), b64ec (b % 16 * 4), '=']
  | a :: b :: c :: rest =>
    b64ec (a / 4) :: b64ec (a % 4 * 16 + b / 16) ::
      b64ec (b % 16 * 4 + c / 64) :: b64ec (c % 64) :: b64encodeList rest

/-- Base64 decoding back to bytes: four characters at a time, a
non-alphabet third or fourth character marking a final padded group. -/
def b64decodeList : List Char → Option (List Nat)
  | [] => some []
  | c1 :: c2 :: c3 :: c4 :: rest =>
    match b64dc c1, b64dc c2 with
    | some g1, some g2 =>
      match b64dc c3 with
      | none => if rest.isEmpty then some [g1 * 4 + g2 / 16] else none
      | some g3 =>
        match b64dc c4 with
        | none =>
          if rest.isEmpty then some [g1 * 4 + g2 / 16, g2 % 16 * 16 + g3 / 4]
          else none
        | some g4 =>
          (b64decodeList rest).map
            (fun tl => (g1 * 4 + g2 / 16) :: (g2 % 16 * 16 + g3 / 4) ::
              (g3 % 4 * 64 + g4) :: tl)
    | _, _ => none
  | _ => none

/-- `base64.b64encode(bytes).decode("utf-8")`. -/
def b64encode (bs : List Nat) : String := ⟨b64encodeList bs⟩

/-- `base64.b64decode` of such a string, back to bytes. -/
def b64decode (s : String) : Option (List Nat) := b64decodeList s.data

lemma b64dc_b64ec : ∀ k < 64, b64dc (b64ec k) = some k := by decide

lemma b64dc_pad : b64dc '=' = none := by decide

lemma b64_roundtrip (l : List Nat) (h : ∀ b ∈ l, b < 256) :
    b64decodeList (b64encodeList l) = some l := by
  induction l using b64encodeList.induct with
  | case1 => rfl
  | case2 a =>
    have ha : a < 256 := h a (by simp)
    rw [b64encodeList, b64decodeList,
      b64dc_b64ec (a / 4) (by omega), b64dc_b64ec (a % 4 * 16) (by omega),
      b64dc_pad]
    simp only [List.isEmpty_nil, if_true, Option.some.injEq, List.cons.injEq,
      and_true]
    omega
  | case3 a b =>
    have ha : a < 256 := h a (by simp)
    have hb : b < 256 := h b (by simp)
    rw [b64encodeList, b64decodeList,
      b64dc_b64ec (a / 4) (by omega), b64dc_b64ec (a % 4 * 16 + b / 16) (by omega),
      b64dc_b64ec (b % 16 * 4) (by omega), b64dc_pad]
    simp only [List.isEmpty_nil, if_true, Option.some.injEq, List.cons.injEq,
      and_true]
    omega
  | case4 a b c rest ih =>
    have ha : a < 256 := h a (by simp)
    have hb : b < 256 := h b (by simp)
    have hc : c < 256 := h c (by simp)
    rw [b64encodeList, b64decodeList,
      b64dc_b64ec (a / 4) (by omega), b64dc_b64ec (a % 4 * 16 + b / 16) (by omega),
      b64dc_b64ec (b % 16 * 4 + c / 64) (by omega), b64dc_b64ec (c % 64) (by omega),
      ih (fun x hx => h x (by simp [hx]))]
    simp only [Option.map_some', Option.some.injEq, List.cons.injEq, and_true]
    omega

/-! ## Report imager (`pdf_to_base64_images`, utils.py 91-110)

The renderer (`page.get_pixmap(matrix=fitz.Matrix(2, 2)).tobytes("png")`)
is an external library; it is an oracle from the page index and the matrix
diagonal to either the PNG byte string or a raised exception. -/

/-- The page loop of `pdf_to_base64_images`: render each listed page at the
fixed `Matrix(2, 2)` and collect base64 strings; the first renderer
exception aborts the loop and propagates. -/
def render_pages (render : Nat → ℚ × ℚ → Except Unit (List Nat)) :
    List Nat → Except Unit (List String)
  | [] => .ok []
  | i :: rest =>
    match render i (2, 2) with
    | .error e => .error e
    | .ok bytes =>
      match render_pages render rest with
      | .error e => .error e
      | .ok imgs => .ok (b64encode bytes :: imgs)

/-- `pdf_to_base64_images` (utils.py 91-110) on an opened document of
`numPages` pages.  The second component records whether `doc.close()`
(line 109) executed: the call follows the loop with no `try/finally`, so
an exception escaping the loop skips it. -/
def pdf_to_base64_images (render : Nat → ℚ × ℚ → Except Unit (List Nat))
    (numPages : Nat) : Except Unit (List String) × Bool :=
  match render_pages render (List.range numPages) with
  | .ok imgs => (.ok imgs, true)
  | .error e => (.error e, false)

/-- **C8 fails as stated.** On a one-page document whose page rendering
raises, the exception propagates and `doc.close()` never runs: the handle
is not released on the error path. -/
theorem pdf_close_skipped_on_error :
    pdf_to_base64_images (fun _ _ => .error ()) 1 = (.error (), false) := by
  rfl

/-- **C8 (amended).** The document handle is released exactly when the
rendering of all pages succeeds: on success `doc.close()` runs after the
loop; when rendering any page raises, the error propagates and the close
call is skipped. -/
theorem pdf_close_iff_success (render : Nat → ℚ × ℚ → Except Unit (List Nat))
    (numPages : Nat) :
    (pdf_to_base64_images render numPages).2 = true ↔
      ∃ imgs, (pdf_to_base64_images render numPages).1 = .ok imgs := by
  unfold pdf_to_base64_images
  cases hr : render_pages render (List.range numPages) with
  | ok imgs => simp
  | error e => simp

lemma render_pages_ok (render : Nat → ℚ × ℚ → Except Unit (List Nat))
    (bytes : Nat → List Nat) :
    ∀ idxs : List Nat, (∀ i ∈ idxs, render i (2, 2) = .ok (bytes i)) →
      render_pages render idxs = .ok (idxs.map (fun i => b64encode (bytes i))) := by
  intro idxs
  induction idxs with
  | nil => intro _; rfl
  | cons i rest ih =>
    intro hok
    rw [render_pages, hok i (by simp), ih (fun j hj => hok j (by simp [hj]))]
    rfl

/-- **C9.** When every page of an `N`-page document renders successfully
(to byte strings, each byte below 256), the function returns exactly `N`
base64 strings in page order -- the handle closed -- and each string
base64-decodes back to the PNG bytes of its page as rendered at the fixed
`Matrix(2, 2)` scale. -/
theorem pdf_to_base64_images_spec
    (render : Nat → ℚ × ℚ → Except Unit (List Nat)) (numPages : Nat)
    (bytes : Nat → List Nat)
    (hok : ∀ i < numPages, render i (2, 2) = .ok (bytes i))
    (hvalid : ∀ i < numPages, ∀ b ∈ bytes i, b < 256) :
    pdf_to_base64_images render numPages =
      (.ok ((List.range numPages).map (fun i => b64encode (bytes i))), true) ∧
    ((List.range numPages).map (fun i => b64encode (bytes i))).length =
      numPages ∧
    ∀ i < numPages, b64decode (b64encode (bytes i)) = some (bytes i) := by
  have hloop := render_pages_ok render bytes (List.range numPages)
    (fun i hi => hok i (List.mem_range.mp hi))
  refine ⟨?_, by simp, fun i hi => ?_⟩
  · unfold pdf_to_base64_images
    rw [hloop]
  · exact b64_roundtrip (bytes i) (hvalid i hi)

/-- `pdf_to_base64_images_spec` on a concrete two-page document: two
base64 strings in page order, handle closed, both decoding back to the
page bytes. -/
theorem pdf_to_base64_images_spec_witness :
    pdf_to_base64_images (fun i _ => .ok [i, 255]) 2 =
      (.ok ["AP8=", "Af8="], true) ∧
    b64decode "AP8=" = some [0, 255] ∧ b64decode "Af8=" = some [1, 255] := by
  have h := pdf_to_base64_images_spec (fun i _ => .ok [i, 255]) 2
    (fun i => [i, 255]) (fun i _ => rfl) (by decide)
  refine ⟨h.1.trans (by rfl), ?_, ?_⟩
  · have h0 := h.2.2 0 (by decide)
    rw [show b64encode [0, 255] = "AP8=" from by decide] at h0
    exact h0
  · have h1 := h.2.2 1 (by decide)
    rw [show b64encode [1, 255] = "Af8=" from by decide] at h1
    exact h1
